import Mathlib

/-!
Verification of the AwoX mesh connection/command engine
(`custom_components/awox/awox_mesh.py`).

Each Python routine that the claims touch is embedded as an executable
Lean definition.  Side effects (subscriber callbacks, link disconnects,
queue completion signals) are modelled as explicit event lists; machine
state that the routines read or write is passed explicitly.  Timestamps
are integers (seconds); `dt_util.now()` is a parameter `now`.
-/

namespace AwoxMesh

/-! ## Command dispatch: `_call_command` (awox_mesh.py lines 283 to 324)

The call of the bluetooth command coroutine either returns a result
(`ok true` for a non-None result, `ok false` for a None result) or
raises (`exn`, covering timeouts of the marshalled coroutine).  The
connection attempt performed by `_async_connect_device` at the top of
`_call_command` is summarised by the boolean `connected`: the value of
`self.is_connected()` after that attempt. -/

inductive DispatchResult : Type where
  | ok (resultNonNone : Bool)
  | exn
  deriving DecidableEq, Repr

/-- Embeds `_call_command`.  Returns the boolean result of the Python
function together with a flag telling whether a forced disconnect of the
current device was performed (lines 315 to 318).  The early `return False`
for the not-connected case (lines 287 to 288) performs no disconnect. -/
def callCommand (connected : Bool) (allowToFail : Bool) (dispatch : DispatchResult) :
    Bool × Bool :=
  if connected = false then (false, false)
  else
    -- lines 291 to 306: result is None both on a None return and on an exception
    let resultIsNone : Bool := match dispatch with
      | .ok r => !r
      | .exn => true
    let failed0 : Bool := match dispatch with
      | .ok _ => false
      | .exn => true
    -- line 311: a None result counts as failure unless the command may fail
    let failed : Bool := if resultIsNone && !allowToFail && !failed0 then true else failed0
    -- lines 315 to 318: any failure forces a disconnect
    -- lines 321 to 324: only commands not allowed to fail report failure
    if failed && !allowToFail then (false, failed) else (true, failed)

/-! ## Worker loop body: `_process_command_queue` (lines 259 to 281)

One iteration of the worker loop processes one dequeued command: the
retry loop `while not self._call_command(command) and tries < 3`, the
exception handler that forces a disconnect, and the completion callback.
The n-th evaluation of `_call_command` is summarised by
`outcome n : AttemptOutcome`: either the function returned (`ret ok disc`,
with `disc` the forced-disconnect flag of `callCommand`), or an exception
escaped it (`exn`), e.g. from the marshalled connect call on
lines 284 to 286. -/

inductive AttemptOutcome : Type where
  | ret (ok : Bool) (forcedDisconnect : Bool)
  | exn
  deriving DecidableEq, Repr

/-- Events produced while the worker processes one command. -/
inductive WEv : Type where
  | callAttempt
  | forcedDisconnect
  | completeCallback
  deriving DecidableEq, Repr

/-- Number of occurrences of event `e` in an event list. -/
def countEv (e : WEv) : List WEv → Nat
  | [] => 0
  | x :: xs => (if x = e then 1 else 0) + countEv e xs

/-- Embeds the retry loop `tries = 0; while not self._call_command(command)
and tries < 3: tries += 1` (lines 266 to 270).  `remaining` is `3 - tries`,
so the loop body may run again exactly when `remaining > 0`; the initial
call is made unconditionally when the condition is first evaluated.  The
returned boolean reports whether an exception escaped the loop. -/
def attemptLoopAux (outcome : Nat → AttemptOutcome) : Nat → Nat → List WEv × Bool
  | n, remaining =>
    match outcome n with
    | .exn => ([WEv.callAttempt], true)
    | .ret ok disc =>
      let evs := WEv.callAttempt :: (if disc then [WEv.forcedDisconnect] else [])
      if ok then (evs, false)
      else
        match remaining with
        | 0 => (evs, false)
        | r + 1 =>
          let rest := attemptLoopAux outcome (n + 1) r
          (evs ++ rest.1, rest.2)

/-- Embeds lines 266 to 279: the attempt loop under its `try`, the
`except` handler that marshals `_disconnect_current_device` (lines
272 to 276), and the completion callback invocation (lines 278 to 279);
every command enqueued by `_async_add_command_to_queue` carries a
callback, so the guard checking the callback key is taken. -/
def processCommand (outcome : Nat → AttemptOutcome) : List WEv :=
  let r := attemptLoopAux outcome 0 3
  r.1 ++ (if r.2 then [WEv.forcedDisconnect] else []) ++ [WEv.completeCallback]

/-- Composes the worker loop with `_call_command`: the n-th evaluation of
the loop condition runs `callCommand` on the n-th environment (connection
outcome and dispatch result). -/
def outcomeOfEnv (allowToFail : Bool) (env : Nat → Bool × DispatchResult) (n : Nat) :
    AttemptOutcome :=
  let r := callCommand (env n).1 allowToFail (env n).2
  .ret r.1 r.2

/-! ## Node registry (`self._devices`) and `register_device` (lines 98 to 106)

The registry is a Python dict keyed by mesh id; dict semantics are
embedded as an association list preserving insertion order, with
assignment replacing the value of an existing key in place.  A
subscriber callback is identified by an opaque natural number.  The
`rssi` key only exists after a scan; its absence is `none`. -/

structure Device : Type where
  mac : String
  name : String
  callbackId : Nat
  lastUpdate : Option Int
  rssi : Option Int
  deriving DecidableEq, Repr

/-- Python dict assignment `d[k] = v` on an insertion-ordered dict. -/
def dictInsert {β : Type} : List (Nat × β) → Nat → β → List (Nat × β)
  | [], k, v => [(k, v)]
  | (k0, v0) :: rest, k, v =>
    if k0 = k then (k, v) :: rest else (k0, v0) :: dictInsert rest k v

/-- Python dict membership and read, `d[k]`. -/
def dictLookup {α β : Type} [DecidableEq α] : List (α × β) → α → Option β
  | [], _ => none
  | (k0, v0) :: rest, k => if k0 = k then some v0 else dictLookup rest k

/-- Embeds `register_device` (lines 98 to 106): stores mac, name and
callback under the mesh id, with `last_update` set to None (and no rssi
key yet). -/
def registerDevice (devices : List (Nat × Device)) (meshId : Nat)
    (mac name : String) (callbackId : Nat) : List (Nat × Device) :=
  dictInsert devices meshId ⟨mac, name, callbackId, none, none⟩

/-! ## Health check: the per-node staleness pass of `_async_update_data`
(lines 146 to 163) and the escalation path (lines 135 to 141,
167 to 171).

Only the `last_update` field of each registry entry is read or written by
these passes, so a node is carried as its mesh id paired with that field.
A subscriber callback invocation with the unknown-state marker
written {state: None} in the source is the event `markUnreachable`; enqueueing a targeted
`requestStatus` command is the event `requestStatus`. -/

inductive NodeEv : Type where
  | requestStatus (meshId : Nat)
  | markUnreachable (meshId : Nat)
  deriving DecidableEq, Repr

/-- Embeds one iteration of the device loop on lines 146 to 163 for the
node `meshId` whose stored `last_update` is `lastUpdate`, with
`dt_util.now()` equal to `now`: a targeted status request when there was
no update in the last 60 seconds (lines 149 to 157), then the unreachable
marking when the stored update is more than 90 seconds old
(lines 160 to 163).  Returns the new `last_update` and the events in
program order. -/
def stalenessStep (now : Int) (meshId : Nat) (lastUpdate : Option Int) :
    Option Int × List NodeEv :=
  let needRequest : Bool := match lastUpdate with
    | none => true
    | some t => t < now - 60
  let evs1 := if needRequest then [NodeEv.requestStatus meshId] else []
  match lastUpdate with
  | some t =>
    if t < now - 90 then (none, evs1 ++ [NodeEv.markUnreachable meshId])
    else (some t, evs1)
  | none => (none, evs1)

/-- Embeds `update_status_of_all_devices_to_disabled` (lines 167 to 171):
every node with a prior update gets the unknown-state callback and its
`last_update` cleared; nodes without one are untouched.  Returns the new
`last_update` fields and the mesh ids whose callback fired, in registry
order. -/
def updateStatusOfAllDevicesToDisabled (devices : List (Nat × Option Int)) :
    List (Nat × Option Int) × List Nat :=
  match devices with
  | [] => ([], [])
  | (meshId, lu) :: rest =>
    let r := updateStatusOfAllDevicesToDisabled rest
    match lu with
    | some _ => ((meshId, none) :: r.1, meshId :: r.2)
    | none => ((meshId, none) :: r.1, r.2)

/-- Outcome of one health-check cycle of `_async_update_data`. -/
inductive CycleEnd : Type where
  | failure
  | success
  deriving DecidableEq, Repr

/-- Embeds lines 135 to 141 of `_async_update_data`: the branch taken when
`self.is_connected()` is false after the broadcast status request.  When
the previous cycle succeeded (`lastUpdateSuccess = true`) nothing is
touched; otherwise all previously updated nodes are disabled first; in
both cases the cycle raises `UpdateFailed("No device connected")`. -/
def healthCycleDisconnectedEnd (lastUpdateSuccess : Bool)
    (devices : List (Nat × Option Int)) :
    List (Nat × Option Int) × List Nat × CycleEnd :=
  if lastUpdateSuccess then (devices, [], CycleEnd.failure)
  else
    let r := updateStatusOfAllDevicesToDisabled devices
    (r.1, r.2, CycleEnd.failure)

/-! ## Enqueue guard: `_async_add_command_to_queue` (lines 228 to 247) and
the worker-alive check of `_async_update_data` (lines 113 to 114). -/

structure QueuedCommand : Type where
  command : String
  allowToFail : Bool
  deriving DecidableEq, Repr

inductive EnqueueOutcome : Type where
  | raisedWorkerDead
  | enqueued
  deriving DecidableEq, Repr

/-- Embeds `_async_add_command_to_queue` up to the point where the caller
starts waiting for completion: when the command thread is not alive, it
raises `UpdateFailed("Command tread died!")` before `self._queue.put`
runs, leaving the queue unchanged; otherwise the command is appended. -/
def addCommandToQueue (threadAlive : Bool) (q : List QueuedCommand)
    (c : QueuedCommand) : List QueuedCommand × EnqueueOutcome :=
  if threadAlive = false then (q, EnqueueOutcome.raisedWorkerDead)
  else (q ++ [c], EnqueueOutcome.enqueued)

/-- Embeds the first statement of `_async_update_data` (lines 113 to 114):
`true` means the health check raises `UpdateFailed("Command tread died!")`
immediately. -/
def updateDataWorkerGuardRaises (threadAlive : Bool) : Bool :=
  !threadAlive

/-! ## Disconnect and shutdown: `_disconnect_current_device`
(lines 210 to 221) and `async_shutdown` (lines 223 to 226).

The owned Link is identified by an opaque natural number.  `MeshState`
carries the fields these routines touch: `self._connected_bluetooth_device`,
the connected_device field of `self._state` and `self._shutdown`.  The boolean
parameter `discRaises` tells whether the awaited `device.disconnect()`
raises (including a timeout of the surrounding 10 second bound). -/

structure MeshState : Type where
  connectedBluetoothDevice : Option Nat
  stateConnectedDevice : Option String
  shutdownFlag : Bool
  deriving DecidableEq, Repr

inductive DiscEv : Type where
  | clearLinkRef
  | awaitLinkDisconnect (linkId : Nat)
  | errorSwallowed
  | notifyListeners
  deriving DecidableEq, Repr

/-- Embeds `_disconnect_current_device`: an early return when no device is
owned; otherwise the owned reference is cleared before the disconnect of
the saved device is awaited, any exception is caught and logged, and
`_async_update_mesh_state` then clears the connected-device name (since
`is_connected()` is false once the reference is gone) and notifies
listeners.  The final boolean tells whether the routine propagates an
error to its caller; the structure of the source (the bare early return,
and the `except Exception` handler around the await) makes it false on
every path. -/
def disconnectCurrentDevice (s : MeshState) (discRaises : Bool) :
    MeshState × List DiscEv × Bool :=
  match s.connectedBluetoothDevice with
  | none => (s, [], false)
  | some linkId =>
    let s1 : MeshState := { s with connectedBluetoothDevice := none }
    let evs := [DiscEv.clearLinkRef, DiscEv.awaitLinkDisconnect linkId]
      ++ (if discRaises then [DiscEv.errorSwallowed] else [])
    let s2 : MeshState := { s1 with stateConnectedDevice := none }
    (s2, evs ++ [DiscEv.notifyListeners], false)

/-- Embeds `async_shutdown` (lines 223 to 226): sets the shutdown flag and
delegates to `_disconnect_current_device`. -/
def asyncShutdown (s : MeshState) (discRaises : Bool) :
    MeshState × List DiscEv × Bool :=
  disconnectCurrentDevice { s with shutdownFlag := true } discRaises

/-! ## Connect with fallback: `_async_connect_device` (lines 326 to 356)

Each candidate is a registry entry with its mesh id and mac (a mac of
None is skipped at line 331).  The outcome of `await device.connect()`
under the 10 second bound for the candidate with mesh id `i` is
`connectOutcome i`: `success` (returned true), `returnedFalse`, or `exn`
(raised or timed out). -/

structure Candidate : Type where
  meshId : Nat
  mac : Option String
  deriving DecidableEq, Repr

inductive ConnectOutcome : Type where
  | success
  | returnedFalse
  | exn
  deriving DecidableEq, Repr

inductive ConnEv : Type where
  | connectTried (meshId : Nat)
  | candidateDisconnect (meshId : Nat)
  deriving DecidableEq, Repr

/-- Embeds the candidate loop of `_async_connect_device` (lines
330 to 353): candidates without a mac are skipped; a successful connect
stores the device and breaks out (line 345) without the trailing
disconnect; a false return or an exception falls through to
`await device.disconnect()` (line 353) and the loop continues.  Returns
the mesh id of the stored connected device, if any, and the events in
program order. -/
def connectCandidateLoop (connectOutcome : Nat → ConnectOutcome) :
    List Candidate → Option Nat × List ConnEv
  | [] => (none, [])
  | d :: rest =>
    match d.mac with
    | none => connectCandidateLoop connectOutcome rest
    | some _ =>
      match connectOutcome d.meshId with
      | .success => (some d.meshId, [ConnEv.connectTried d.meshId])
      | _ =>
        let r := connectCandidateLoop connectOutcome rest
        (r.1, ConnEv.connectTried d.meshId :: ConnEv.candidateDisconnect d.meshId :: r.2)

/-- Embeds `_async_connect_device`: the early return when already
connected (lines 327 to 328), else the candidate loop.  The first
argument is the owned device at entry (`none` exactly when the state is
disconnected). -/
def asyncConnectDevice (connectedAtEntry : Option Nat)
    (connectOutcome : Nat → ConnectOutcome) (devices : List Candidate) :
    Option Nat × List ConnEv :=
  match connectedAtEntry with
  | some linkId => (some linkId, [])
  | none => connectCandidateLoop connectOutcome devices

/-! ## RSSI scan and re-sort: `_async_get_devices_rssi` (lines 358 to 382)

The scan result is a dict from upper-case mac to an optional rssi
reading.  Lines 364 to 376 assign each registry entry a rank: its reading
when the scan found the device with one, the sentinel -99999 when found
without a reading, and -999999 when not found.  Line 382 rebuilds the
registry dict sorted by that key, descending; Python `sorted` is stable,
which `List.insertionSort` with the reflexive descending relation
reproduces. -/

/-- Python `str.upper()` applied to a mac address, character-wise. -/
def pyUpper (s : String) : String :=
  ⟨s.data.map Char.toUpper⟩

/-- Rank assigned to a device with the given mac by lines 364 to 376. -/
def rssiRank (scan : List (String × Option Int)) (mac : String) : Int :=
  match dictLookup scan (pyUpper mac) with
  | some (some r) => r
  | some none => -99999
  | none => -999999

/-- Sort key of line 382, the rssi field of the entry; every entry has just been
assigned a rank, so the default is never read. -/
def rssiKey (p : Nat × Device) : Int :=
  p.2.rssi.getD (-999999)

/-- Descending comparison on the rssi key (line 382 sorts with
`reverse=True`). -/
def rssiDescLE (a b : Nat × Device) : Prop :=
  rssiKey b ≤ rssiKey a

instance : DecidableRel rssiDescLE := fun a b => by
  unfold rssiDescLE; infer_instance

instance : IsTotal (Nat × Device) rssiDescLE :=
  ⟨fun a b => le_total (rssiKey b) (rssiKey a)⟩

instance : IsTrans (Nat × Device) rssiDescLE :=
  ⟨fun _ _ _ h1 h2 => le_trans h2 h1⟩

/-- Embeds `_async_get_devices_rssi`: assigns every registry entry its
rank (lines 364 to 376), then rebuilds the registry sorted by descending
rank (line 382). -/
def getDevicesRssi (scan : List (String × Option Int))
    (devices : List (Nat × Device)) : List (Nat × Device) :=
  let assigned := devices.map
    (fun p => (p.1, { p.2 with rssi := some (rssiRank scan p.2.mac) }))
  List.insertionSort rssiDescLE assigned

/-! ## Concrete instances used by witnesses and examples -/

/-- Registry for the RSSI example of the spec: nodes A, B, C. -/
def exampleDevices : List (Nat × Device) :=
  [(1, ⟨"AA", "A", 0, none, none⟩),
   (2, ⟨"BB", "B", 1, none, none⟩),
   (3, ⟨"CC", "C", 2, none, none⟩)]

/-- Scan result for the RSSI example: A at -50, C at -70, B not found. -/
def exampleScan : List (String × Option Int) :=
  [("AA", some (-50)), ("CC", some (-70))]

/-- Environment where the first two dispatches raise (timeouts) and the
third returns a result, with a connection available throughout. -/
def twoTimeoutsThenSuccess (n : Nat) : Bool × DispatchResult :=
  (true, if n < 2 then DispatchResult.exn else DispatchResult.ok true)

/-- Candidate list with one mac-less entry, for the connect witness. -/
def witnessCandidates : List Candidate :=
  [⟨1, some "AA"⟩, ⟨2, none⟩, ⟨3, some "CC"⟩]

/-- Connect outcome where every candidate returns false. -/
def witnessAllFalse : Nat → ConnectOutcome :=
  fun _ => ConnectOutcome.returnedFalse

/-- Registry with two entries, for the registration witness. -/
def witnessRegistry : List (Nat × Device) :=
  [(1, ⟨"AA", "A", 0, some 5, none⟩), (2, ⟨"BB", "B", 1, none, none⟩)]

/-! ## Helper lemmas -/

theorem countEv_append (e : WEv) (l1 l2 : List WEv) :
    countEv e (l1 ++ l2) = countEv e l1 + countEv e l2 := by
  induction l1 with
  | nil => simp [countEv]
  | cons x xs ih => simp [countEv, ih]; omega

theorem attemptLoopAux_eq (outcome : Nat → AttemptOutcome) (n remaining : Nat) :
    attemptLoopAux outcome n remaining =
      match outcome n with
      | .exn => ([WEv.callAttempt], true)
      | .ret ok disc =>
        let evs := WEv.callAttempt :: (if disc then [WEv.forcedDisconnect] else [])
        if ok then (evs, false)
        else
          match remaining with
          | 0 => (evs, false)
          | r + 1 =>
            let rest := attemptLoopAux outcome (n + 1) r
            (evs ++ rest.1, rest.2) := by
  rw [attemptLoopAux]

theorem countEv_callback_loop (outcome : Nat → AttemptOutcome) :
    ∀ remaining n, countEv WEv.completeCallback (attemptLoopAux outcome n remaining).1 = 0 := by
  intro remaining
  induction remaining with
  | zero =>
    intro n
    rw [attemptLoopAux_eq]
    cases h : outcome n with
    | exn => simp [countEv]
    | ret ok disc =>
      cases ok <;> cases disc <;> simp [countEv]
  | succ r ih =>
    intro n
    rw [attemptLoopAux_eq]
    cases h : outcome n with
    | exn => simp [countEv]
    | ret ok disc =>
      cases ok <;> cases disc <;>
        simp [countEv, countEv_append, ih (n + 1)]

theorem countEv_call_loop_le (outcome : Nat → AttemptOutcome) :
    ∀ remaining n, countEv WEv.callAttempt (attemptLoopAux outcome n remaining).1 ≤ remaining + 1 := by
  intro remaining
  induction remaining with
  | zero =>
    intro n
    rw [attemptLoopAux_eq]
    cases h : outcome n with
    | exn => simp [countEv]
    | ret ok disc =>
      cases ok <;> cases disc <;> simp [countEv]
  | succ r ih =>
    intro n
    rw [attemptLoopAux_eq]
    cases h : outcome n with
    | exn => simp [countEv]
    | ret ok disc =>
      have hr := ih (n + 1)
      cases ok <;> cases disc <;>
        simp [countEv, countEv_append] <;> omega

theorem callCommand_connected_allowed (d : DispatchResult) :
    (callCommand true true d).1 = true
      ∧ ((callCommand true true d).2 = true ↔ d = DispatchResult.exn) := by
  cases d with
  | ok r => cases r <;> exact ⟨rfl, by decide⟩
  | exn => exact ⟨rfl, by decide⟩

theorem updateStatusDisabled_spec (devices : List (Nat × Option Int)) :
    (updateStatusOfAllDevicesToDisabled devices).1
        = devices.map (fun p => (p.1, (none : Option Int)))
      ∧ (updateStatusOfAllDevicesToDisabled devices).2
        = (devices.filter (fun p => p.2.isSome)).map Prod.fst := by
  induction devices with
  | nil => simp [updateStatusOfAllDevicesToDisabled]
  | cons hd tl ih =>
    obtain ⟨meshId, lu⟩ := hd
    cases lu <;>
      simp [updateStatusOfAllDevicesToDisabled, ih.1, ih.2, List.filter_cons]

theorem dictLookup_dictInsert_self {β : Type} (l : List (Nat × β)) (k : Nat) (v : β) :
    dictLookup (dictInsert l k v) k = some v := by
  induction l with
  | nil => simp [dictInsert, dictLookup]
  | cons hd tl ih =>
    obtain ⟨k0, v0⟩ := hd
    by_cases h : k0 = k <;> simp [dictInsert, dictLookup, h, ih]

theorem dictLookup_dictInsert_ne {β : Type} (l : List (Nat × β)) (k : Nat) (v : β)
    (j : Nat) (h : j ≠ k) :
    dictLookup (dictInsert l k v) j = dictLookup l j := by
  induction l with
  | nil =>
    simp only [dictInsert, dictLookup]
    rw [if_neg (fun he => h he.symm)]
  | cons hd tl ih =>
    obtain ⟨k0, v0⟩ := hd
    by_cases h0 : k0 = k
    · subst h0
      simp only [dictInsert, if_pos rfl, dictLookup]
      rw [if_neg (fun he => h he.symm), if_neg (fun he => h he.symm)]
    · simp [dictInsert, dictLookup, h0, ih]

/-! ## Claim theorems -/

/-- C1: for every command dequeued by the worker loop, the completion
callback is invoked exactly once before the worker proceeds to the next
command, on every path: command succeeded, command exhausted its retries,
or an exception escaped the attempt loop. -/
theorem completion_callback_fires_exactly_once (outcome : Nat → AttemptOutcome) :
    countEv WEv.completeCallback (processCommand outcome) = 1 := by
  unfold processCommand
  have h := countEv_callback_loop outcome 3 0
  cases hr : (attemptLoopAux outcome 0 3) with
  | mk evs raised =>
    rw [hr] at h
    cases raised <;> simp [countEv_append, h, countEv]

/-- C2 counterexample: the claim bounds the number of dispatch attempts
per command by 3, but when every attempt fails the worker evaluates
`_call_command` four times (the loop guard runs the call before checking
`tries < 3`, and `tries` reaches 3 only after the third failed call). -/
theorem worker_makes_four_attempts_when_all_fail :
    countEv WEv.callAttempt
      (processCommand (fun _ => AttemptOutcome.ret false true)) = 4 := by
  decide

/-- C2 (amended): the worker attempts execution of each dequeued command
at most 4 times in total; for a command whose first two dispatch attempts
fail and whose third succeeds, exactly 3 attempts are made with 2 forced
disconnects in between; and for a command whose attempts all fail,
exactly 4 dispatch attempts occur before the worker gives up. -/
theorem worker_attempt_bounds :
    (∀ outcome, countEv WEv.callAttempt (processCommand outcome) ≤ 4)
  ∧ countEv WEv.callAttempt
      (processCommand (outcomeOfEnv false twoTimeoutsThenSuccess)) = 3
  ∧ countEv WEv.forcedDisconnect
      (processCommand (outcomeOfEnv false twoTimeoutsThenSuccess)) = 2
  ∧ countEv WEv.callAttempt
      (processCommand (outcomeOfEnv false (fun _ => (true, DispatchResult.exn)))) = 4 := by
  refine ⟨?_, by decide, by decide, by decide⟩
  intro outcome
  unfold processCommand
  have h := countEv_call_loop_le outcome 3 0
  simp only [countEv_append, countEv]
  cases hb : (attemptLoopAux outcome 0 3).2 <;> simp [countEv] <;> omega

/-- C9 counterexample: the claim says a single dispatch attempt of an
allow-to-fail command always reports success, so such a command is never
retried; but when no connection is established, `_call_command` returns
false even for an allow-to-fail command, and the worker then retries it,
evaluating `_call_command` four times. -/
theorem allow_to_fail_retried_when_not_connected :
    (callCommand false true (DispatchResult.ok true)).1 = false
  ∧ countEv WEv.callAttempt
      (processCommand (outcomeOfEnv true (fun _ => (false, DispatchResult.ok true)))) = 4 := by
  exact ⟨rfl, by decide⟩

/-- C9 (amended): for every command whose allow-to-fail flag is set, a
dispatch attempt in which the connect step yields a connection always
reports success to the worker loop, so such a command is never retried
once a connection is available; an empty (None) result does not trigger a
forced disconnect for such a command, but an exception during dispatch
still forces a disconnect before success is reported. -/
theorem allow_to_fail_succeeds_once_connected :
    (∀ d, (callCommand true true d).1 = true
        ∧ ((callCommand true true d).2 = true ↔ d = DispatchResult.exn))
  ∧ ∀ env : Nat → Bool × DispatchResult, (∀ n, (env n).1 = true) →
      countEv WEv.callAttempt (processCommand (outcomeOfEnv true env)) = 1 := by
  refine ⟨callCommand_connected_allowed, ?_⟩
  intro env h
  have h0 := h 0
  unfold processCommand
  rw [attemptLoopAux_eq]
  have hout : outcomeOfEnv true env 0
      = AttemptOutcome.ret (callCommand (env 0).1 true (env 0).2).1
          (callCommand (env 0).1 true (env 0).2).2 := rfl
  rw [hout, h0, (callCommand_connected_allowed (env 0).2).1]
  cases hb : (callCommand true true (env 0).2).2 <;>
    simp [countEv, countEv_append]

/-- C9 witness: instantiates the amended theorem at the environment that
is always connected and always returns an empty result. -/
theorem allow_to_fail_succeeds_once_connected_witness :
    countEv WEv.callAttempt
      (processCommand (outcomeOfEnv true (fun _ => (true, DispatchResult.ok false)))) = 1 :=
  allow_to_fail_succeeds_once_connected.2
    (fun _ => (true, DispatchResult.ok false)) (fun _ => rfl)

/-- C3: a health-check cycle that ends with no device connected reports
failure; when the previous cycle succeeded no node state is touched, and
when the previous cycle also failed the cycle first marks every node that
has a prior last_update as unreachable (its callback receives the
unknown-state marker and its last_update is cleared) before reporting
failure, never touching nodes with no prior update. -/
theorem second_consecutive_failure_disables_updated_nodes
    (devices : List (Nat × Option Int)) :
    healthCycleDisconnectedEnd true devices = (devices, [], CycleEnd.failure)
  ∧ (healthCycleDisconnectedEnd false devices).2.2 = CycleEnd.failure
  ∧ (healthCycleDisconnectedEnd false devices).1
      = devices.map (fun p => (p.1, (none : Option Int)))
  ∧ (healthCycleDisconnectedEnd false devices).2.1
      = (devices.filter (fun p => p.2.isSome)).map Prod.fst := by
  refine ⟨rfl, rfl, ?_, ?_⟩
  · simp [healthCycleDisconnectedEnd, (updateStatusDisabled_spec devices).1]
  · simp [healthCycleDisconnectedEnd, (updateStatusDisabled_spec devices).2]

/-- C4: during a connected health-check cycle, a node whose last_update
is more than 90 seconds in the past is marked unreachable (its callback
receives the unknown-state marker, after the targeted status request, and
its last_update is reset to None); a node whose last_update is within the
last 60 seconds is left entirely untouched by the staleness pass. -/
theorem staleness_pass_characterization (now t : Int) (meshId : Nat) :
    stalenessStep now meshId (some t) =
      if t < now - 90 then
        (none, [NodeEv.requestStatus meshId, NodeEv.markUnreachable meshId])
      else if t < now - 60 then (some t, [NodeEv.requestStatus meshId])
      else (some t, []) := by
  unfold stalenessStep
  by_cases h90 : t < now - 90
  · have h60 : t < now - 60 := by omega
    simp [h90, h60]
  · by_cases h60 : t < now - 60 <;> simp [h90, h60]

/-- C5: starting from the disconnected state, when every candidate
connect attempt fails (returns false, raises or times out), the connect
routine retains no Link reference, so the state remains disconnected, and
the per-candidate disconnect was invoked on every candidate that has a
mac address. -/
theorem all_candidates_fail_leaves_disconnected
    (connectOutcome : Nat → ConnectOutcome) (devices : List Candidate)
    (h : ∀ d ∈ devices, connectOutcome d.meshId ≠ ConnectOutcome.success) :
    (asyncConnectDevice none connectOutcome devices).1 = none
  ∧ ∀ d ∈ devices, d.mac ≠ none →
      ConnEv.candidateDisconnect d.meshId ∈ (asyncConnectDevice none connectOutcome devices).2 := by
  show (connectCandidateLoop connectOutcome devices).1 = none
    ∧ ∀ d ∈ devices, d.mac ≠ none →
        ConnEv.candidateDisconnect d.meshId ∈ (connectCandidateLoop connectOutcome devices).2
  induction devices with
  | nil => simp [connectCandidateLoop]
  | cons c rest ih =>
    have hc := h c (by simp)
    have hrest := ih (fun d hd => h d (List.mem_cons_of_mem _ hd))
    cases hm : c.mac with
    | none =>
      refine ⟨by simp [connectCandidateLoop, hm, hrest.1], ?_⟩
      intro d hd hdm
      rcases List.mem_cons.mp hd with rfl | hd2
      · exact absurd hm hdm
      · simpa [connectCandidateLoop, hm] using hrest.2 d hd2 hdm
    | some m =>
      cases ho : connectOutcome c.meshId with
      | success => exact absurd ho hc
      | returnedFalse =>
        refine ⟨by simp [connectCandidateLoop, hm, ho, hrest.1], ?_⟩
        intro d hd hdm
        rcases List.mem_cons.mp hd with rfl | hd2
        · simp [connectCandidateLoop, hm, ho]
        · simp only [connectCandidateLoop, hm, ho]
          exact List.mem_cons_of_mem _ (List.mem_cons_of_mem _ (hrest.2 d hd2 hdm))
      | exn =>
        refine ⟨by simp [connectCandidateLoop, hm, ho, hrest.1], ?_⟩
        intro d hd hdm
        rcases List.mem_cons.mp hd with rfl | hd2
        · simp [connectCandidateLoop, hm, ho]
        · simp only [connectCandidateLoop, hm, ho]
          exact List.mem_cons_of_mem _ (List.mem_cons_of_mem _ (hrest.2 d hd2 hdm))

/-- C5 witness: every candidate returns false on the concrete three-entry
registry; the loop ends disconnected and the first candidate (which has a
mac) got its disconnect call. -/
theorem all_candidates_fail_leaves_disconnected_witness :
    (asyncConnectDevice none witnessAllFalse witnessCandidates).1 = none
  ∧ ConnEv.candidateDisconnect 1 ∈ (asyncConnectDevice none witnessAllFalse witnessCandidates).2 :=
  ⟨(all_candidates_fail_leaves_disconnected witnessAllFalse witnessCandidates
      (fun _ _ h => ConnectOutcome.noConfusion h)).1,
   (all_candidates_fail_leaves_disconnected witnessAllFalse witnessCandidates
      (fun _ _ h => ConnectOutcome.noConfusion h)).2 ⟨1, some "AA"⟩ (by decide) (by decide)⟩

/-- C6: after an RSSI scan the registry iteration order is the descending
order of assigned rank (a node found with a reading keeps that reading, a
node found without one gets the sentinel -99999, a node not found gets
-999999); for scan results A at -50, B not found, C at -70, the resulting
candidate order is A, C, B. -/
theorem rssi_scan_orders_candidates :
    (getDevicesRssi exampleScan exampleDevices).map Prod.fst = [1, 3, 2]
  ∧ (∀ scan devices, List.Sorted rssiDescLE (getDevicesRssi scan devices))
  ∧ rssiRank exampleScan "aa" = -50
  ∧ rssiRank exampleScan "BB" = -999999
  ∧ rssiRank (("BB", none) :: exampleScan) "bb" = -99999 := by
  refine ⟨by decide, ?_, by decide, by decide, by decide⟩
  intro scan devices
  exact List.sorted_insertionSort rssiDescLE _

/-- C7: when the command worker thread is not alive, every enqueue of a
command raises the fatal worker-dead error before the command is placed
on the queue (the queue is returned unchanged), and the health check
raises the same fatal error at its first statement. -/
theorem dead_worker_raises_before_enqueue :
    (∀ q c, addCommandToQueue false q c = (q, EnqueueOutcome.raisedWorkerDead))
  ∧ updateDataWorkerGuardRaises false = true :=
  ⟨fun _ _ => rfl, rfl⟩

/-- C8: disconnecting with an owned Link clears the owned reference
before the disconnect of the Link is awaited, never propagates a
disconnect error, and leaves the connected-device name absent from the
health snapshot; consequently a second shutdown call performs no second
disconnect (its event list is empty) and does not raise. -/
theorem disconnect_clears_ref_and_shutdown_idempotent :
    (∀ (s : MeshState) (linkId : Nat) (r : Bool),
        disconnectCurrentDevice { s with connectedBluetoothDevice := some linkId } r =
          ({ s with connectedBluetoothDevice := none, stateConnectedDevice := none },
           [DiscEv.clearLinkRef, DiscEv.awaitLinkDisconnect linkId]
             ++ (if r then [DiscEv.errorSwallowed] else []) ++ [DiscEv.notifyListeners],
           false))
  ∧ (∀ s r, (disconnectCurrentDevice s r).2.2 = false)
  ∧ (∀ s r1 r2, (asyncShutdown (asyncShutdown s r1).1 r2).2.1 = []
       ∧ (asyncShutdown (asyncShutdown s r1).1 r2).2.2 = false) := by
  refine ⟨?_, ?_, ?_⟩
  · intro s linkId r
    cases r <;> simp [disconnectCurrentDevice]
  · intro s r
    cases hs : s.connectedBluetoothDevice <;> simp [disconnectCurrentDevice, hs]
  · intro s r1 r2
    cases hs : s.connectedBluetoothDevice with
    | none => simp [asyncShutdown, disconnectCurrentDevice, hs]
    | some linkId => simp [asyncShutdown, disconnectCurrentDevice, hs]

/-- C10: registering a mesh id that is already present silently replaces
the stored entry (mac, name and callback are replaced and last_update is
reset to None), no error is raised (the operation is total), and every
other registry key still maps to its previous entry. -/
theorem register_overwrites_existing_entry
    (devices : List (Nat × Device)) (meshId : Nat) (mac name : String) (cbId : Nat) :
    dictLookup (registerDevice devices meshId mac name cbId) meshId
      = some ⟨mac, name, cbId, none, none⟩
  ∧ ∀ j, j ≠ meshId →
      dictLookup (registerDevice devices meshId mac name cbId) j = dictLookup devices j := by
  unfold registerDevice
  exact ⟨dictLookup_dictInsert_self devices meshId _,
    fun j hj => dictLookup_dictInsert_ne devices meshId _ j hj⟩

/-- C10 witness: re-registers mesh id 1 on a two-entry registry; the
entry of id 1 is replaced with a cleared last_update while id 2 keeps its
previous entry. -/
theorem register_overwrites_existing_entry_witness :
    dictLookup (registerDevice witnessRegistry 1 "M" "N" 7) 1
      = some ⟨"M", "N", 7, none, none⟩
  ∧ dictLookup (registerDevice witnessRegistry 1 "M" "N" 7) 2 = dictLookup witnessRegistry 2 :=
  ⟨(register_overwrites_existing_entry witnessRegistry 1 "M" "N" 7).1,
   (register_overwrites_existing_entry witnessRegistry 1 "M" "N" 7).2 2 (by decide)⟩

end AwoxMesh
